import Mathlib

/-!
Shallow embedding of the client-side code of the source file
`02_Knowledge_Bases_and_RAG/3_customized-rag-with-retrieve-api.ipynb`,
which carries two notebooks: a custom RAG pipeline over the managed
Retrieve and Converse APIs, and a data-preparation notebook for
fine-tuning whose `dp_transform` subsamples the labelled datapoints.
The managed services themselves are opaque: they are modelled as
function parameters from requests to responses (or to an SDK error),
and the theorems speak about the requests the client code builds and
about how the client transforms the responses.
-/

/-! ## Data model: the Retrieve API surface -/

/-- Errors raised by the underlying SDK: an error code (such as
AccessDenied or ThrottlingException) and a message.  The notebook never
inspects these fields; they ride along unchanged. -/
structure SdkError where
  code : String
  message : String
deriving DecidableEq, Repr

/-- The `retrievalQuery` part of a Retrieve request. -/
structure RetrievalQuery where
  text : String
deriving DecidableEq, Repr

/-- The `vectorSearchConfiguration` part of a Retrieve request. -/
structure VectorSearchConfiguration where
  numberOfResults : Nat
  overrideSearchType : String
deriving DecidableEq, Repr

/-- The `retrievalConfiguration` part of a Retrieve request. -/
structure RetrievalConfiguration where
  vectorSearchConfiguration : VectorSearchConfiguration
deriving DecidableEq, Repr

/-- A request to the managed Retrieve endpoint, with the fields the
notebook populates. -/
structure RetrieveRequest where
  retrievalQuery : RetrievalQuery
  knowledgeBaseId : String
  retrievalConfiguration : RetrievalConfiguration
deriving DecidableEq, Repr

/-- The `content` part of one retrieval result: the text chunk. -/
structure RetrievalResultContent where
  text : String
deriving DecidableEq, Repr

/-- The source locator of one retrieval result. -/
structure RetrievalLocation where
  locationType : String
  uri : String
deriving DecidableEq, Repr

/-- One retrieval result returned by the service: a text chunk, a
source locator, and a relevance score.  The score is a floating-point
number produced by the service; the client never computes with it, so
it is modelled as a rational. -/
structure RetrievalResult where
  content : RetrievalResultContent
  location : RetrievalLocation
  score : Rat
deriving DecidableEq, Repr

/-- The part of a Retrieve response the notebook reads. -/
structure RetrieveResponse where
  retrievalResults : List RetrievalResult
deriving DecidableEq, Repr

/-- The managed Retrieve service, opaque to the client: it maps a
request to a response or raises an SDK error. -/
abbrev RetrieveService := RetrieveRequest → Except SdkError RetrieveResponse

/-! ## The notebook's `retrieve` function -/

/-- Embedding of the SDK call `bedrock_agent_client.retrieve(...)`: it
issues exactly the one given request (recorded as the trace, first
component) and returns whatever the service returns for it. -/
def clientRetrieve (svc : RetrieveService) (req : RetrieveRequest) :
    List RetrieveRequest × Except SdkError RetrieveResponse :=
  ([req], svc req)

/-- The request dictionary built inside the notebook's `retrieve`
function: `retrievalQuery.text` is the user query, `knowledgeBaseId` is
the knowledge-base id, and the vector search configuration carries the
requested number of results and the hardcoded
`overrideSearchType: "HYBRID"`. -/
def retrieveRequest (user_query kb_id : String) (num_of_results : Nat) :
    RetrieveRequest :=
  { retrievalQuery := { text := user_query }
    knowledgeBaseId := kb_id
    retrievalConfiguration :=
      { vectorSearchConfiguration :=
          { numberOfResults := num_of_results
            overrideSearchType := "HYBRID" } } }

/-- Embedding of the notebook's `retrieve(user_query, kb_id,
num_of_results=5)`: build the request dictionary and hand it to the SDK
call.  The Python default `num_of_results=5` is the Lean default
argument. -/
def retrieve (svc : RetrieveService) (user_query kb_id : String)
    (num_of_results : Nat := 5) :
    List RetrieveRequest × Except SdkError RetrieveResponse :=
  clientRetrieve svc (retrieveRequest user_query kb_id num_of_results)

/-- The search type carried by the request that `retrieve` issues for
the given arguments. -/
def searchTypeOf (user_query kb_id : String) (num_of_results : Nat) : String :=
  (retrieveRequest user_query kb_id
      num_of_results).retrievalConfiguration.vectorSearchConfiguration.overrideSearchType

/-! ## Python string formatting, embedded

The notebook builds its user prompt with `str.format`, passing the list
of context strings as a field value; Python renders that list with
`str` (which for a list is `repr`): brackets around the comma-separated
`repr`s of the elements.  The functions below embed that rendering and
a `str.format` interpreter for templates made of literal text and
`{name}` replacement fields (the only template shape the notebook
uses). -/

/-- The apostrophe character, Python's preferred string quote. -/
def squoteChar : Char := Char.ofNat 39

/-- The double-quote character, Python's fallback string quote. -/
def dquoteChar : Char := Char.ofNat 34

/-- Opening curly brace, the start of a `str.format` replacement field. -/
def lbraceChar : Char := Char.ofNat 123

/-- Closing curly brace, the end of a `str.format` replacement field. -/
def rbraceChar : Char := Char.ofNat 125

/-- Lower-case hexadecimal digit for a value below 16. -/
def hexDigitChar (n : Nat) : Char :=
  if n < 10 then Char.ofNat (48 + n) else Char.ofNat (87 + n)

/-- How Python's `repr` renders one character of a string quoted with
`quote`: backslash and the quote are backslash-escaped, newline,
carriage return and tab become two-character escapes, other control
characters become `\xHH`, and everything else stands for itself. -/
def pyEscapeChar (quote c : Char) : String :=
  if c = '\\' then "\\\\"
  else if c = quote then String.mk ['\\', quote]
  else if c = '\n' then "\\n"
  else if c = '\r' then "\\r"
  else if c = '\t' then "\\t"
  else if c.toNat < 32 || c.toNat == 127 then
    String.mk ['\\', 'x', hexDigitChar (c.toNat / 16), hexDigitChar (c.toNat % 16)]
  else String.mk [c]

/-- Python's `repr` of a string: quoted with an apostrophe, unless the
string contains an apostrophe and no double quote, in which case it is
quoted with double quotes; characters are escaped relative to the
chosen quote. -/
def pyReprString (s : String) : String :=
  let q := if s.contains squoteChar && !(s.contains dquoteChar)
    then dquoteChar else squoteChar
  String.mk [q] ++ String.join (s.data.map (pyEscapeChar q)) ++ String.mk [q]

/-- Python's `str` of a list of strings: the element `repr`s joined
with a comma and space, inside square brackets. -/
def pyReprStringList (xs : List String) : String :=
  "[" ++ String.intercalate ", " (xs.map pyReprString) ++ "]"

/-- Interpreter for `str.format` templates over a field environment:
literal characters are copied; at an opening brace the field name up to
the closing brace is looked up in the environment and its value is
spliced in (values are never re-scanned, exactly as in Python). -/
def formatCore (env : String → String) : List Char → List Char
  | [] => []
  | c :: rest =>
    if c = lbraceChar then
      (env (String.mk (rest.takeWhile (fun d => d ≠ rbraceChar)))).data
        ++ formatCore env ((rest.dropWhile (fun d => d ≠ rbraceChar)).drop 1)
    else c :: formatCore env rest
termination_by l => l.length
decreasing_by
  · have h1 := (List.dropWhile_sublist (l := rest)
      (fun d => d ≠ rbraceChar)).length_le
    simp only [List.length_cons, List.length_drop]
    omega
  · simp only [List.length_cons]
    omega

/-- Embedding of `template.format(...)` with keyword arguments given as
an environment from field names to already-rendered values. -/
def pyFormat (tpl : String) (env : String → String) : String :=
  String.mk (formatCore env tpl.data)

/-! ## Data model: the Converse API surface -/

/-- One block of the `system` field of a Converse request. -/
structure SystemBlock where
  text : String
deriving DecidableEq, Repr

/-- One content block of a message. -/
structure ContentBlock where
  text : String
deriving DecidableEq, Repr

/-- One message of the `messages` field of a Converse request. -/
structure Message where
  role : String
  content : List ContentBlock
deriving DecidableEq, Repr

/-- The `inferenceConfig` field of a Converse request.  Temperature and
topP are floating-point numbers the client merely passes along,
modelled as rationals. -/
structure InferenceConfig where
  temperature : Rat
  topP : Rat
  maxTokens : Nat
deriving DecidableEq, Repr

/-- The `converse_request` dictionary the notebook builds. -/
structure ConverseRequest where
  system : List SystemBlock
  messages : List Message
  inferenceConfig : InferenceConfig
deriving DecidableEq, Repr

/-- The arguments of the SDK call `bedrock_client.converse(...)`. -/
structure ConverseAPICall where
  modelId : String
  system : List SystemBlock
  messages : List Message
  inferenceConfig : InferenceConfig
deriving DecidableEq, Repr

/-- The `output.message` part of a Converse response. -/
structure OutputMessage where
  role : String
  content : List ContentBlock
deriving DecidableEq, Repr

/-- The `output` part of a Converse response. -/
structure ConverseOutput where
  message : OutputMessage
deriving DecidableEq, Repr

/-- The part of a Converse response the notebook reads. -/
structure ConverseResponse where
  output : ConverseOutput
deriving DecidableEq, Repr

/-- The managed Converse service, opaque to the client. -/
abbrev ConverseService := ConverseAPICall → Except SdkError ConverseResponse

/-! ## The notebook's generation step -/

/-- The model identifier set in the notebook's configuration cell. -/
def model_id : String := "amazon.nova-micro-v1:0"

/-- The system prompt defined in the notebook, verbatim. -/
def system_prompt : String :=
  "You are a financial advisor AI system, and provides answers to questions\nby using fact based and statistical information when possible. \nUse the following pieces of information in <context> tags to provide a concise answer to the questions.\nGive an answer directly, without any XML tags.\nIf you don\x27t know the answer, just say that you don\x27t know, don\x27t try to make up an answer."

/-- The user prompt template defined in the notebook, verbatim, with
its two `str.format` replacement fields. -/
def user_prompt_template : String :=
  "Here is some additional context:\n<context>\n{contexts}\n</context>\n\nPlease provide an answer to this user query:\n<query>\n{user_query}\n</query>\n\nThe response should be specific and use statistics or numbers when possible."

/-- The keyword arguments of the notebook's
`user_prompt_template.format(contexts=contexts, user_query=user_query)`
call, as a field environment: the list of context strings is rendered
the way Python renders a list passed to `format`, and the user query is
spliced in verbatim. -/
def formatEnv (contexts : List String) (user_query : String) :
    String → String :=
  fun field =>
    if field = "contexts" then pyReprStringList contexts
    else if field = "user_query" then user_query
    else ""

/-- The `contexts` list comprehension of the notebook: the
`content.text` field of each retrieval result, in order. -/
def contextsOf (resp : RetrieveResponse) : List String :=
  resp.retrievalResults.map (fun rr => rr.content.text)

/-- The `converse_request` dictionary of the notebook: the system
prompt as the single system block, one user message holding the
formatted prompt, and the literal inference configuration. -/
def converse_request (user_query : String) (contexts : List String) :
    ConverseRequest :=
  { system := [{ text := system_prompt }]
    messages :=
      [{ role := "user"
         content :=
           [{ text := pyFormat user_prompt_template
                (formatEnv contexts user_query) }] }]
    inferenceConfig := { temperature := 0.4, topP := 0.9, maxTokens := 500 } }

/-- The arguments of the notebook's `bedrock_client.converse(...)`
call: the model id together with the `system`, `messages` and
`inferenceConfig` entries read back out of `converse_request`. -/
def converseArgs (user_query : String) (contexts : List String) :
    ConverseAPICall :=
  let req := converse_request user_query contexts
  { modelId := model_id
    system := req.system
    messages := req.messages
    inferenceConfig := req.inferenceConfig }

/-- The displayed final answer,
`response["output"]["message"]["content"][0]["text"]`: the text of the
first content block of the output message, when there is one. -/
def finalAnswer (resp : ConverseResponse) : Option String :=
  (resp.output.message.content.get? 0).map ContentBlock.text

/-- The notebook's end-to-end dataflow: call `retrieve`, extract the
context texts, build and issue the Converse call, and read off the
final answer.  An error from either SDK call propagates unchanged, as
the notebook wraps neither call in any handler. -/
def ragPipeline (retrieveSvc : RetrieveService) (converseSvc : ConverseService)
    (user_query kb_id : String) (num_of_results : Nat) :
    Except SdkError (Option String) :=
  match (retrieve retrieveSvc user_query kb_id num_of_results).2 with
  | .error e => .error e
  | .ok resp =>
    match converseSvc (converseArgs user_query (contextsOf resp)) with
    | .error e => .error e
    | .ok cresp => .ok (finalAnswer cresp)

/-! ## Dataset preparation and subsampling

The same source file carries a second notebook: data preparation for
Claude-3 Haiku fine-tuning.  Its processing loops build labelled
datapoints — a fixed system string plus one user and one assistant
message — and its `dp_transform` subsamples them: keep the datapoints
whose combined text fits the length limit, `random.shuffle` the
retained list in place, and keep its first `num_dps` entries.  The
shuffle draws from Python's global pseudo-random generator, which the
notebook never seeds; the embedding makes that hidden generator
explicit as a state threaded through a `randbelow` step function, the
shape of the `_randbelow` primitive CPython's `random.shuffle` is
built on. -/

/-- One entry of a datapoint's `messages` list: a role and a content
string. -/
structure ChatMessage where
  role : String
  content : String
deriving DecidableEq, Repr

/-- One fine-tuning datapoint: a system string and a list of messages.
The notebook always builds exactly a user and an assistant message. -/
structure DataPoint where
  system : String
  messages : List ChatMessage
deriving DecidableEq, Repr

/-- The datapoint construction of the notebook's processing loops: the
fixed system string, one user message whose content is the instruction
followed by the dialogue, and one assistant message holding the
summary. -/
def buildDataPoint (system_string instruction dialogue summary : String) :
    DataPoint :=
  { system := system_string
    messages :=
      [{ role := "user", content := instruction ++ dialogue },
       { role := "assistant", content := summary }] }

/-- The content of the message at an index, the way `dp_transform`
indexes `messages[0]` and `messages[1]`; the empty string stands for
the out-of-range case, which the notebook's datapoints never hit. -/
def contentAt (ms : List ChatMessage) (i : Nat) : String :=
  ((ms.get? i).map ChatMessage.content).getD ""

/-- The quantity `dp_transform` tests against the limit:
the length of `system + messages[0].content + messages[1].content`. -/
def dpCombinedLength (dp : DataPoint) : Nat :=
  (dp.system ++ contentAt dp.messages 0 ++ contentAt dp.messages 1).length

/-- The tuple assignment `x[i], x[j] = x[j], x[i]` of CPython's
`random.shuffle`: read both positions, then write position `i` and then
position `j`.  Out-of-range indices leave the list unchanged; the real
shuffle only produces in-range ones. -/
def listSwap {α : Type} (xs : List α) (i j : Nat) : List α :=
  match xs.get? i, xs.get? j with
  | some a, some b => (xs.set i b).set j a
  | _, _ => xs

/-- The loop of CPython's `random.shuffle` — for `i` from `len(x) - 1`
down to `1`, draw `j = randbelow(i + 1)` and swap `x[i]` with `x[j]` —
over an explicit generator state.  The first argument is the loop
index; the draw is reduced modulo the bound, the identity for a
faithful `randbelow`. -/
def pyShuffleGo {σ α : Type} (rb : σ → Nat → Nat × σ) :
    Nat → List α → σ → List α × σ
  | 0, xs, s => (xs, s)
  | i + 1, xs, s =>
    pyShuffleGo rb i
      (listSwap xs (i + 1) ((rb s (i + 2)).1 % (i + 2)))
      (rb s (i + 2)).2

/-- `random.shuffle(x)` over an explicit generator state: run the swap
loop from index `len(x) - 1` down to `1`. -/
def pyShuffle {σ α : Type} (rb : σ → Nat → Nat × σ) (xs : List α)
    (s : σ) : List α × σ :=
  pyShuffleGo rb (xs.length - 1) xs s

/-- The notebook's `dp_transform(data_points, num_dps, max_dp_length)`:
keep the datapoints whose combined system, user and assistant text
length is at most `max_dp_length`, shuffle the retained list with the
global generator — its state threaded explicitly — and keep the first
`num_dps` entries; the second component is the generator state
afterwards. -/
def dp_transform {σ : Type} (rb : σ → Nat → Nat × σ) (s : σ)
    (data_points : List DataPoint) (num_dps max_dp_length : Nat) :
    List DataPoint × σ :=
  let lines := data_points.filter
    (fun dp => dpCombinedLength dp ≤ max_dp_length)
  let sh := pyShuffle rb lines s
  (sh.1.take num_dps, sh.2)

/-! ## Theorems -/

/-- C1: for every service, user query, knowledge-base id and result
count, `retrieve` issues exactly one Retrieve request — whose
`retrievalQuery.text` is the user query, whose `knowledgeBaseId` is the
knowledge-base id, and whose
`vectorSearchConfiguration.numberOfResults` is the result count, with 5
the default when omitted — and it returns the service's response value
unchanged. -/
theorem retrieve_issues_one_request_and_passes_response
    (svc : RetrieveService) (q kb : String) (n : Nat) :
    (retrieve svc q kb n).1 = [retrieveRequest q kb n] ∧
    (retrieveRequest q kb n).retrievalQuery.text = q ∧
    (retrieveRequest q kb n).knowledgeBaseId = kb ∧
    (retrieveRequest q kb
      n).retrievalConfiguration.vectorSearchConfiguration.numberOfResults
      = n ∧
    (retrieve svc q kb n).2 = svc (retrieveRequest q kb n) ∧
    retrieve svc q kb = retrieve svc q kb 5 :=
  ⟨rfl, rfl, rfl, rfl, rfl, rfl⟩

/-- C2, counterexample: the claim that the issued search type is
determined by an argument of the retrieval call — that is, that it is
not the same across all argument tuples — is false: no two argument
tuples give different search types, and at the two explicit inputs
below the issued search type is "HYBRID" both times. -/
theorem searchType_not_argument_determined :
    (¬ ∃ q kb n q2 kb2 n2, searchTypeOf q kb n ≠ searchTypeOf q2 kb2 n2) ∧
    searchTypeOf "What is Amazon doing in the field of Generative AI?"
      "kb-12345" 3 = "HYBRID" ∧
    searchTypeOf "another query" "other-kb" 7 = "HYBRID" := by
  refine ⟨?_, rfl, rfl⟩
  rintro ⟨q, kb, n, q2, kb2, n2, h⟩
  exact h rfl

/-- C2, amended: the search type of every issued Retrieve request is
the fixed constant "HYBRID", hardcoded in the request dictionary and
independent of the user query, the knowledge-base id and the result
count; of the vector search configuration only the result count is
caller-supplied. -/
theorem searchType_is_fixed_hybrid (q kb : String) (n : Nat) :
    searchTypeOf q kb n = "HYBRID" :=
  rfl

/-- C3: every generation step issues a Converse call whose system field
is exactly the defined system instruction, whose message list is the
single user message holding the formatted prompt, and whose inference
parameters are temperature 0.4, topP 0.9 and maxTokens 500; and the
displayed final answer is the text field of the first content element
of the returned output message. -/
theorem converse_call_inputs_and_answer (q : String) (ctxs : List String)
    (resp : ConverseResponse) (c : ContentBlock) (cs : List ContentBlock) :
    (converseArgs q ctxs).modelId = model_id ∧
    (converseArgs q ctxs).system = [{ text := system_prompt }] ∧
    (converseArgs q ctxs).messages =
      [{ role := "user"
         content :=
           [{ text := pyFormat user_prompt_template (formatEnv ctxs q) }] }] ∧
    (converseArgs q ctxs).inferenceConfig =
      { temperature := 0.4, topP := 0.9, maxTokens := 500 } ∧
    (resp.output.message.content = c :: cs →
      finalAnswer resp = some c.text) := by
  refine ⟨rfl, rfl, rfl, rfl, fun h => ?_⟩
  simp [finalAnswer, h]

/-- Witness for the C3 theorem: at a concrete response whose output
message has one content block, the displayed answer is that block's
text. -/
theorem converse_call_inputs_and_answer_witness :
    finalAnswer
      { output := { message := { role := "assistant"
                                 content := [{ text := "hello" }] } } }
      = some "hello" :=
  (converse_call_inputs_and_answer "q" ["ctx"]
    { output := { message := { role := "assistant"
                               content := [{ text := "hello" }] } } }
    { text := "hello" } []).2.2.2.2 rfl

/-- C4: the context-extraction step yields exactly the `content.text`
fields of the retrieval results, one per result and in the order the
service returned them: the extracted list has the same length as the
result list, and position by position it holds the corresponding
result's chunk text.  The result records are pure inputs of the
extraction — read, never altered or fabricated. -/
theorem contexts_extraction_exact (resp : RetrieveResponse) (i : Nat) :
    (contextsOf resp).length = resp.retrievalResults.length ∧
    (contextsOf resp).get? i =
      (resp.retrievalResults.get? i).map (fun rr => rr.content.text) := by
  constructor
  · simp [contextsOf]
  · simp [contextsOf]

/-- C5: an error raised by either underlying SDK call is re-raised
unchanged: when the Retrieve call fails with an error, the pipeline
halts with exactly that error, and when the Retrieve call succeeds but
the Converse call fails with an error, the pipeline halts with exactly
that error — no call site catches, classifies, retries or recovers. -/
theorem sdk_errors_propagate_unchanged
    (rSvc : RetrieveService) (cSvc : ConverseService)
    (q kb : String) (n : Nat) :
    (∀ e, rSvc (retrieveRequest q kb n) = .error e →
      ragPipeline rSvc cSvc q kb n = .error e) ∧
    (∀ resp e, rSvc (retrieveRequest q kb n) = .ok resp →
      cSvc (converseArgs q (contextsOf resp)) = .error e →
      ragPipeline rSvc cSvc q kb n = .error e) := by
  constructor
  · intro e he
    simp [ragPipeline, retrieve, clientRetrieve, he]
  · intro resp e hok herr
    simp [ragPipeline, retrieve, clientRetrieve, hok, herr]

/-- Witness for the C5 theorem: a Retrieve failure surfaces as exactly
that error, and a Converse failure after a successful retrieval
surfaces as exactly that error. -/
theorem sdk_errors_propagate_unchanged_witness :
    ragPipeline (fun _ => .error { code := "AccessDeniedException"
                                   message := "denied" })
        (fun _ => .error { code := "ThrottlingException"
                           message := "slow down" }) "q" "kb" 3
      = .error { code := "AccessDeniedException", message := "denied" } ∧
    ragPipeline (fun _ => .ok { retrievalResults := [] })
        (fun _ => .error { code := "ThrottlingException"
                           message := "slow down" }) "q" "kb" 3
      = .error { code := "ThrottlingException", message := "slow down" } :=
  ⟨(sdk_errors_propagate_unchanged
      (fun _ => .error { code := "AccessDeniedException"
                         message := "denied" })
      (fun _ => .error { code := "ThrottlingException"
                         message := "slow down" }) "q" "kb" 3).1
      { code := "AccessDeniedException", message := "denied" } rfl,
   (sdk_errors_propagate_unchanged
      (fun _ => .ok { retrievalResults := [] })
      (fun _ => .error { code := "ThrottlingException"
                         message := "slow down" }) "q" "kb" 3).2
      { retrievalResults := [] }
      { code := "ThrottlingException", message := "slow down" } rfl rfl⟩

/-- C10: the system instruction sent to the generation call is a fixed
constant — any two runs, whatever their user queries and retrieved
contexts, issue Converse calls with identical system fields, namely the
single block holding the defined system prompt. -/
theorem system_field_constant (q1 q2 : String) (ctxs1 ctxs2 : List String) :
    (converseArgs q1 ctxs1).system = (converseArgs q2 ctxs2).system ∧
    (converseArgs q1 ctxs1).system = [{ text := system_prompt }] :=
  ⟨rfl, rfl⟩

/-! ## Splitting the format interpreter on a concrete template -/

/-- The empty template formats to the empty output. -/
theorem formatCore_nil (env : String → String) : formatCore env [] = [] := by
  simp [formatCore]

/-- A literal character is copied through the format interpreter. -/
theorem formatCore_cons_lit (env : String → String) (c : Char)
    (hc : c ≠ lbraceChar) (l : List Char) :
    formatCore env (c :: l) = c :: formatCore env l := by
  rw [formatCore]
  simp [hc]

/-- A run of literal characters is copied through the format
interpreter. -/
theorem formatCore_lit_append (env : String → String) (lit l : List Char)
    (h : ∀ c ∈ lit, c ≠ lbraceChar) :
    formatCore env (lit ++ l) = lit ++ formatCore env l := by
  induction lit with
  | nil => simp
  | cons c cs ih =>
    simp only [List.cons_append]
    rw [formatCore_cons_lit env c (h c (by simp))]
    rw [ih (fun d hd => h d (by simp [hd]))]

/-- Splitting a list at the first element failing the predicate. -/
theorem takeWhile_dropWhile_split (p : Char → Bool) (l : List Char)
    (h : ∀ c ∈ l, p c = true) (c0 : Char) (hc0 : p c0 = false)
    (rest : List Char) :
    (l ++ c0 :: rest).takeWhile p = l ∧
    (l ++ c0 :: rest).dropWhile p = c0 :: rest := by
  induction l with
  | nil => simp [List.takeWhile_cons, List.dropWhile_cons, hc0]
  | cons a t ih =>
    have ha : p a = true := h a (by simp)
    have ih2 := ih (fun d hd => h d (by simp [hd]))
    simp [List.takeWhile_cons, List.dropWhile_cons, ha, ih2.1, ih2.2]

/-- A replacement field is substituted by the environment's value for
its name, and formatting resumes after the closing brace. -/
theorem formatCore_field (env : String → String) (field rest : List Char)
    (hf : ∀ c ∈ field, c ≠ rbraceChar) :
    formatCore env (lbraceChar :: (field ++ rbraceChar :: rest)) =
      (env (String.mk field)).data ++ formatCore env rest := by
  have hsplit := takeWhile_dropWhile_split (fun d => decide (d ≠ rbraceChar))
    field (fun c hc => decide_eq_true (hf c hc)) rbraceChar (by simp) rest
  rw [formatCore]
  simp only [if_pos rfl]
  rw [hsplit.1, hsplit.2]
  simp

/-- A template with no opening brace is all literal. -/
theorem formatCore_all_lit (env : String → String) (lit : List Char)
    (h : ∀ c ∈ lit, c ≠ lbraceChar) : formatCore env lit = lit := by
  have h2 := formatCore_lit_append env lit [] h
  simpa [formatCore_nil] using h2

/-- Gluing characters lists back into strings. -/
theorem mk_append (a b : List Char) :
    String.mk (a ++ b) = String.mk a ++ String.mk b := rfl

/-- A string is the string of its characters. -/
theorem mk_data (s : String) : String.mk s.data = s := rfl

set_option maxRecDepth 4096 in
/-- The notebook's user prompt template, split into its three literal
runs and its two replacement fields. -/
theorem user_prompt_template_split :
    user_prompt_template.data =
      ("Here is some additional context:\n<context>\n" : String).data ++
        lbraceChar :: (("contexts" : String).data ++ rbraceChar ::
          (("\n</context>\n\nPlease provide an answer to this user query:\n<query>\n" : String).data ++
            lbraceChar :: (("user_query" : String).data ++ rbraceChar ::
              ("\n</query>\n\nThe response should be specific and use statistics or numbers when possible." : String).data))) := by
  decide

/-- Evaluating the notebook's `format` call symbolically: the formatted
user prompt is the leading literal run, then the rendered context list,
then the middle literal run, then the user query verbatim, then the
closing literal run. -/
theorem pyFormat_user_prompt (contexts : List String) (q : String) :
    pyFormat user_prompt_template (formatEnv contexts q) =
      "Here is some additional context:\n<context>\n" ++
        pyReprStringList contexts ++
        "\n</context>\n\nPlease provide an answer to this user query:\n<query>\n" ++
        q ++
        "\n</query>\n\nThe response should be specific and use statistics or numbers when possible." := by
  unfold pyFormat
  rw [user_prompt_template_split]
  rw [formatCore_lit_append _ _ _ (by decide)]
  rw [formatCore_field _ _ _ (by decide)]
  rw [formatCore_lit_append _ _ _ (by decide)]
  rw [formatCore_field _ _ _ (by decide)]
  rw [formatCore_all_lit _ _ (by decide)]
  have e1 : formatEnv contexts q (String.mk ("contexts" : String).data) =
      pyReprStringList contexts := by
    simp [formatEnv]
  have e2 : formatEnv contexts q (String.mk ("user_query" : String).data) =
      q := by
    simp [formatEnv]
  rw [e1, e2]
  rw [mk_append, mk_append, mk_append, mk_append]
  rw [mk_data, mk_data, mk_data, mk_data, mk_data]
  simp [String.append_assoc]

/-- C9: the single user message sent to the generation call carries the
user query verbatim between the query tags, and between the context
tags it carries the Python rendering of the contexts list object —
brackets and element quoting included — rather than the chunk texts
joined as plain text. -/
theorem user_message_query_and_context_shape
    (contexts : List String) (q : String) :
    (converseArgs q contexts).messages =
      [{ role := "user"
         content := [{ text :=
           "Here is some additional context:\n<context>\n" ++
             pyReprStringList contexts ++
             "\n</context>\n\nPlease provide an answer to this user query:\n<query>\n" ++
             q ++
             "\n</query>\n\nThe response should be specific and use statistics or numbers when possible." }] }] := by
  simp [converseArgs, converse_request, pyFormat_user_prompt]


/-! ## Properties of the subsampling routine -/

/-- A list whose entry at an index is known is a permutation of that
entry consed onto the list with the entry erased. -/
theorem get?_perm_cons_eraseIdx {α : Type} :
    ∀ (l : List α) (k : Nat) (b : α), l.get? k = some b →
      l.Perm (b :: l.eraseIdx k) := by
  intro l
  induction l with
  | nil => intro k b h; simp at h
  | cons c t ih =>
    intro k b h
    cases k with
    | zero =>
      simp only [List.get?] at h
      injection h with h
      simp [List.eraseIdx, h]
    | succ m =>
      simp only [List.get?] at h
      have step := (ih m b h).cons c
      have hswap := List.Perm.swap b c (t.eraseIdx m)
      exact step.trans hswap

/-- Writing a value over a known entry permutes to consing the value
onto the list with that entry erased. -/
theorem set_perm_cons_eraseIdx {α : Type} :
    ∀ (l : List α) (k : Nat) (a b : α), l.get? k = some b →
      (l.set k a).Perm (a :: l.eraseIdx k) := by
  intro l
  induction l with
  | nil => intro k a b h; simp at h
  | cons c t ih =>
    intro k a b h
    cases k with
    | zero => simp [List.set, List.eraseIdx]
    | succ m =>
      simp only [List.get?] at h
      have step := (ih m a b h).cons c
      have hswap := List.Perm.swap a c (t.eraseIdx m)
      exact step.trans hswap

/-- The double write of the swap — position `i` gets the old `x[j]`,
then position `j` gets the old `x[i]` — permutes the list. -/
theorem set_set_swap_perm {α : Type} :
    ∀ (xs : List α) (i j : Nat) (a b : α),
      xs.get? i = some a → xs.get? j = some b →
      ((xs.set i b).set j a).Perm xs := by
  intro xs
  induction xs with
  | nil => intro i j a b h1 _; simp at h1
  | cons c t ih =>
    intro i j a b h1 h2
    cases i with
    | zero =>
      simp only [List.get?] at h1
      injection h1 with h1
      cases j with
      | zero =>
        simp [List.set, ← h1]
      | succ m =>
        simp only [List.get?] at h2
        have hset := (set_perm_cons_eraseIdx t m a b h2).cons b
        have hmid := List.Perm.swap a b (t.eraseIdx m)
        have hback := ((get?_perm_cons_eraseIdx t m b h2).symm).cons a
        have chain := (hset.trans hmid).trans hback
        subst h1
        exact chain
    | succ n =>
      simp only [List.get?] at h1
      cases j with
      | zero =>
        simp only [List.get?] at h2
        injection h2 with h2
        have hset := (set_perm_cons_eraseIdx t n b a h1).cons a
        have hmid := List.Perm.swap b a (t.eraseIdx n)
        have hback := ((get?_perm_cons_eraseIdx t n a h1).symm).cons b
        have chain := (hset.trans hmid).trans hback
        subst h2
        exact chain
      | succ m =>
        simp only [List.get?] at h2
        exact (ih n m a b h1 h2).cons c

/-- The swap step preserves the records of the list. -/
theorem listSwap_perm {α : Type} (xs : List α) (i j : Nat) :
    (listSwap xs i j).Perm xs := by
  unfold listSwap
  split
  next a b h1 h2 => exact set_set_swap_perm xs i j a b h1 h2
  next => exact List.Perm.refl xs

/-- Every run of the shuffle loop permutes its input, whatever the
generator and its state. -/
theorem pyShuffleGo_perm {σ α : Type} (rb : σ → Nat → Nat × σ) :
    ∀ (i : Nat) (xs : List α) (s : σ),
      ((pyShuffleGo rb i xs s).1).Perm xs := by
  intro i
  induction i with
  | zero => intro xs s; exact List.Perm.refl xs
  | succ m ih =>
    intro xs s
    exact (ih _ _).trans (listSwap_perm xs (m + 1) _)

/-- The embedded `random.shuffle` permutes its input, whatever the
generator and its state. -/
theorem pyShuffle_perm {σ α : Type} (rb : σ → Nat → Nat × σ)
    (xs : List α) (s : σ) : ((pyShuffle rb xs s).1).Perm xs :=
  pyShuffleGo_perm rb (xs.length - 1) xs s

/-- C6: every record in the output of `dp_transform` has combined
(system + user-message + assistant-message) text length at most
`max_dp_length`, whatever the generator, its entry state, the input
records and the requested count. -/
theorem dp_transform_within_length_limit {σ : Type}
    (rb : σ → Nat → Nat × σ) (s : σ) (data_points : List DataPoint)
    (num_dps max_dp_length : Nat) (dp : DataPoint)
    (hdp : dp ∈ (dp_transform rb s data_points num_dps max_dp_length).1) :
    dpCombinedLength dp ≤ max_dp_length := by
  have h1 : dp ∈ (pyShuffle rb (data_points.filter
      (fun r => dpCombinedLength r ≤ max_dp_length)) s).1 :=
    List.mem_of_mem_take hdp
  have h2 : dp ∈ data_points.filter
      (fun r => dpCombinedLength r ≤ max_dp_length) :=
    (pyShuffle_perm rb _ s).mem_iff.mp h1
  exact of_decide_eq_true (List.mem_filter.mp h2).2

/-- Witness for the C6 theorem: the single record of a concrete
one-record run, driven by a toy generator, is within the limit. -/
theorem dp_transform_within_length_limit_witness :
    dpCombinedLength (buildDataPoint "sys" "inst: " "dialogue" "summary")
      ≤ 100 :=
  dp_transform_within_length_limit (fun st b => (st % b, st + 1)) 0
    [buildDataPoint "sys" "inst: " "dialogue" "summary"] 1 100
    (buildDataPoint "sys" "inst: " "dialogue" "summary") (by decide)

/-- C7: the size of the `dp_transform` output is the minimum of the
requested count and the number of records passing the length filter. -/
theorem dp_transform_size_min {σ : Type} (rb : σ → Nat → Nat × σ)
    (s : σ) (data_points : List DataPoint) (num_dps max_dp_length : Nat) :
    (dp_transform rb s data_points num_dps max_dp_length).1.length =
      min num_dps (data_points.filter
        (fun r => dpCombinedLength r ≤ max_dp_length)).length := by
  show ((pyShuffle rb (data_points.filter
      (fun r => dpCombinedLength r ≤ max_dp_length)) s).1.take
        num_dps).length = _
  rw [List.length_take]
  rw [(pyShuffle_perm rb _ s).length_eq]

/-- C8: the only nondeterminism of `dp_transform` is the global
pseudo-random generator, modelled as the explicit entry state — the
state that seeding fixes; the notebook itself never calls
`random.seed`.  With equal entry states, two runs on the same input
return identical results; and for any two entry states the shuffled
retained records are permutations of one another — the length
filtering is independent of the generator, only the order varies. -/
theorem dp_transform_prng_determinism_and_filter_independence
    {σ : Type} (rb : σ → Nat → Nat × σ) (s1 s2 : σ)
    (data_points : List DataPoint) (num_dps max_dp_length : Nat) :
    (s1 = s2 →
      dp_transform rb s1 data_points num_dps max_dp_length =
        dp_transform rb s2 data_points num_dps max_dp_length) ∧
    ((pyShuffle rb (data_points.filter
        (fun r => dpCombinedLength r ≤ max_dp_length)) s1).1).Perm
      ((pyShuffle rb (data_points.filter
        (fun r => dpCombinedLength r ≤ max_dp_length)) s2).1) := by
  constructor
  · intro h
    rw [h]
  · exact (pyShuffle_perm rb _ s1).trans (pyShuffle_perm rb _ s2).symm

/-- Witness for the C8 theorem at a concrete generator, entry states
and records: equal entry states reproduce the run, and entry states 7
and 8 shuffle the same retained records. -/
theorem dp_transform_prng_determinism_witness :
    dp_transform (fun st b => (st % b, st + 1)) 7
        [buildDataPoint "sys" "inst: " "d1" "s1",
         buildDataPoint "sys" "inst: " "d2" "s2"] 1 100 =
      dp_transform (fun st b => (st % b, st + 1)) 7
        [buildDataPoint "sys" "inst: " "d1" "s1",
         buildDataPoint "sys" "inst: " "d2" "s2"] 1 100 ∧
    ((pyShuffle (fun st b => (st % b, st + 1))
        (([buildDataPoint "sys" "inst: " "d1" "s1",
           buildDataPoint "sys" "inst: " "d2" "s2"] : List DataPoint).filter
          (fun r => dpCombinedLength r ≤ 100)) 7).1).Perm
      ((pyShuffle (fun st b => (st % b, st + 1))
        (([buildDataPoint "sys" "inst: " "d1" "s1",
           buildDataPoint "sys" "inst: " "d2" "s2"] : List DataPoint).filter
          (fun r => dpCombinedLength r ≤ 100)) 8).1) :=
  ⟨(dp_transform_prng_determinism_and_filter_independence
      (fun st b => (st % b, st + 1)) 7 7
      [buildDataPoint "sys" "inst: " "d1" "s1",
       buildDataPoint "sys" "inst: " "d2" "s2"] 1 100).1 rfl,
   (dp_transform_prng_determinism_and_filter_independence
      (fun st b => (st % b, st + 1)) 7 8
      [buildDataPoint "sys" "inst: " "d1" "s1",
       buildDataPoint "sys" "inst: " "d2" "s2"] 1 100).2⟩
